import Mathlib

/-!
Verification of the demo-mode subsystem of an espresso-machine control
application: a demo-state controller persisting a boolean flag through a
durable key-value store and navigation-context query parameters, and a
telemetry synthesizer producing brew history, power history, daily summaries,
demo logs and a statistics snapshot.

The embedding models JavaScript numbers as exact rationals (ℚ), machine
randomness (Math.random) as an explicit stream of draws indexed by a counter,
and host services (window, localStorage, the local-time conversions of Date)
as explicit parameters.  Fallible host access is an Except computation.
-/

namespace BrewOS

/-- JavaScript Math.round x: the integer nearest to x, halves toward +∞. -/
def jsRound (q : ℚ) : ℤ := ⌊q + 1/2⌋

/-- Math.round (q * 10) / 10, the source's rounding to one decimal place. -/
def round1 (q : ℚ) : ℚ := (jsRound (q * 10) : ℚ) / 10

/-- Math.round (q * 100) / 100, the source's rounding to two decimal places. -/
def round2 (q : ℚ) : ℚ := (jsRound (q * 100) : ℚ) / 100

/-- Math.round (q * 10000) / 10000, the source's rounding to four decimal places. -/
def round4 (q : ℚ) : ℚ := (jsRound (q * 10000) : ℚ) / 10000

/-! ## Demo-state controller

The controller persists the key "brewos-demo-mode" in localStorage and reads
the query parameters demo and exitDemo of window.location.search.
-/

/-- A navigation context's query parameters in order, as URLSearchParams holds them. -/
abbrev QueryParams := List (String × String)

/-- URLSearchParams.get: the first value stored under the key, null when absent. -/
def getParam (ps : QueryParams) (key : String) : Option String :=
  (ps.find? (fun p => p.1 == key)).map (fun p => p.2)

/-- URLSearchParams.delete: every value under the key is removed. -/
def deleteParam (ps : QueryParams) (key : String) : QueryParams :=
  ps.filter (fun p => p.1 != key)

/-- The host environment seen by the controller.  win is the navigation
context's query parameters when a window object exists (none models
typeof window being undefined).  store is the durable key-value store:
none models localStorage itself being unavailable, some v models an
available localStorage whose value at the demo-mode key is v (none = key
absent).  Accessing an unavailable localStorage throws, which the
embedding reports as Except.error. -/
structure Host where
  win : Option QueryParams
  store : Option (Option String)
deriving DecidableEq

/-- localStorage.setItem (DEMO_MODE_KEY, "true"); throws when localStorage is unavailable. -/
def enableDemoMode (h : Host) : Except Unit Host :=
  match h.store with
  | none => .error ()
  | some _ => .ok { h with store := some (some "true") }

/-- localStorage.removeItem (DEMO_MODE_KEY); throws when localStorage is unavailable. -/
def disableDemoMode (h : Host) : Except Unit Host :=
  match h.store with
  | none => .error ()
  | some _ => .ok { h with store := some none }

/-- isDemoMode of the source: when a window exists, a truthy exitDemo
parameter clears the flag, strips the parameter from the visible location
and returns false; else a truthy demo parameter sets the flag and returns
true; otherwise (and when no window exists) the durable flag's value is
read.  The localStorage accesses (both the final getItem and the
setItem/removeItem of the first two branches) are written without a guard
in the source, so with the store unavailable every path throws. -/
def isDemoMode (h : Host) : Except Unit (Bool × Host) :=
  match h.win with
  | some ctx =>
    if getParam ctx "exitDemo" = some "true" then
      match disableDemoMode h with
      | .error e => .error e
      | .ok h1 => .ok (false, { h1 with win := some (deleteParam ctx "exitDemo") })
    else if getParam ctx "demo" = some "true" then
      match enableDemoMode h with
      | .error e => .error e
      | .ok h1 => .ok (true, h1)
    else
      match h.store with
      | none => .error ()
      | some s => .ok (decide (s = some "true"), h)
  | none =>
    match h.store with
    | none => .error ()
    | some s => .ok (decide (s = some "true"), h)

/-! ## Demo logs -/

/-- One demo log entry.  id is the entry's timestamp in milliseconds since
epoch; the source also renders the same instant as an ISO time string. -/
structure LogEntry where
  id : ℤ
  level : String
  message : String
  source : String
deriving DecidableEq

/-- getDemoLogs of the source: ten fixed entries at offsets 5:00, 4:00,
3:30, 3:00, 2:30, 2:00, 1:30, 1:00, 0:30 and 0:10 before the call. -/
def getDemoLogs (nowMs : ℤ) : List LogEntry :=
  [ ⟨nowMs - 5 * 60000, "info", "Machine powered on", "esp32"⟩,
    ⟨nowMs - 4 * 60000, "info", "WiFi connected to 'HomeNetwork' (192.168.1.100)", "esp32"⟩,
    ⟨nowMs - 3 * 60000 - 30000, "info", "Pico controller connected", "esp32"⟩,
    ⟨nowMs - 3 * 60000, "info", "Heating started - target: 93.0 C", "pico"⟩,
    ⟨nowMs - 2 * 60000 - 30000, "info", "Boiler temperature: 85.2 C", "pico"⟩,
    ⟨nowMs - 2 * 60000, "info", "Boiler temperature: 90.1 C", "pico"⟩,
    ⟨nowMs - 1 * 60000 - 30000, "info", "Target temperature reached: 93.0 C", "pico"⟩,
    ⟨nowMs - 1 * 60000, "info", "Brewing started", "pico"⟩,
    ⟨nowMs - 30000, "info", "Brewing stopped - shot time: 28s", "pico"⟩,
    ⟨nowMs - 10000, "info", "System idle - maintaining temperature", "pico"⟩ ]

/-! ## Telemetry synthesizer: shared environment -/

/-- The synthesizer's environment: now is Math.floor (Date.now () / 1000)
captured at module load; rand is the stream of Math.random () draws, read
at successive indices; getDay t is the local day of week (0 = Sunday) of
the instant t seconds since epoch; hourOfDay t is getHours () +
getMinutes () / 60 of that instant in local time. -/
structure Env where
  now : ℤ
  rand : ℕ → ℚ
  getDay : ℤ → ℤ
  hourOfDay : ℤ → ℚ

/-- Math.random always yields a number in [0, 1). -/
def RandOK (r : ℕ → ℚ) : Prop := ∀ n, 0 ≤ r n ∧ r n < 1

/-! ## Brew history -/

/-- One simulated extraction event (BrewRecord of the source). timestamp is
in seconds since epoch and carries the fractional hours of the draw. -/
structure BrewRecord where
  timestamp : ℚ
  durationMs : ℤ
  yieldWeight : ℚ
  doseWeight : ℚ
  peakPressure : ℚ
  avgTemperature : ℚ
  avgFlowRate : ℚ
  rating : ℤ
  ratio : ℚ
deriving DecidableEq

/-- The source's fixed list of typical coffee-consumption hours. -/
def brewTimes : List ℚ :=
  [6.5, 7, 7.5, 8, 8.5, 9, 12, 12.5, 13, 14, 14.5, 15, 15.5, 16, 17, 17.5, 18, 18.5, 19]

/-- The weighted brew-hour draw: 40% morning, 20% early afternoon, 25%
evening, else a uniform pick from brewTimes.  Each path reads the draws at
k (the mixture choice) and k+1 (the position inside the band). -/
def brewHourOf (e : Env) (k : ℕ) : ℚ :=
  if e.rand k < 0.4 then 6.5 + e.rand (k + 1) * 2.5
  else if e.rand k < 0.6 then 14 + e.rand (k + 1) * 2
  else if e.rand k < 0.85 then 17 + e.rand (k + 1) * 2
  else brewTimes.getD (⌊e.rand (k + 1) * 19⌋).toNat 0

/-- One brew of generateBrewHistory's inner loop, drawing from e.rand at
indices k, k+1, …; returns the record and the next unused index. -/
def genBrew (e : Env) (daysAgo : ℕ) (k : ℕ) : BrewRecord × ℕ :=
  let brewHour := brewHourOf e k
  let k1 := k + 2
  let timestamp : ℚ :=
    (e.now : ℚ) - (daysAgo : ℚ) * 86400 - (24 - brewHour) * 3600 + (⌊e.rand k1 * 3600⌋ : ℤ)
  let durationMs : ℤ := 25000 + ⌊e.rand (k1 + 1) * 10000⌋
  let doseWeight : ℚ := 17 + e.rand (k1 + 2) * 4
  let ratio : ℚ := 1.8 + e.rand (k1 + 3) * 0.7
  let yieldWeight : ℚ := doseWeight * ratio
  let peakPressure : ℚ := 8.2 + e.rand (k1 + 4) * 1.8
  let avgTemperature : ℚ := 92.5 + e.rand (k1 + 5) * 3.5
  let avgFlowRate : ℚ := 1.8 + e.rand (k1 + 6) * 1.2
  let rt :=
    if e.rand (k1 + 7) < 0.25 then
      if e.rand (k1 + 8) > 0.2 then ((4 + ⌊e.rand (k1 + 9) * 2⌋ : ℤ), k1 + 10)
      else ((3 : ℤ), k1 + 9)
    else ((0 : ℤ), k1 + 8)
  (⟨timestamp, durationMs, round1 yieldWeight, round1 doseWeight, round1 peakPressure,
    round1 avgTemperature, round1 avgFlowRate, rt.1, round1 ratio⟩, rt.2)

/-- The inner for-loop of generateBrewHistory: n brews for one day. -/
def brewInner (e : Env) (daysAgo : ℕ) : ℕ → ℕ → List BrewRecord × ℕ
  | 0, k => ([], k)
  | n + 1, k =>
    let bk := genBrew e daysAgo k
    let rest := brewInner e daysAgo n bk.2
    (bk.1 :: rest.1, rest.2)

/-- The day-type brew count of generateBrewHistory, drawn at index k:
today 3-5, weekends 4-7, Fridays 3-5, other weekdays 2-5 (day of week
taken in local time at the day's timestamp). -/
def dayBrewCount (e : Env) (daysAgo : ℕ) (k : ℕ) : ℤ :=
  if daysAgo = 0 then 3 + ⌊e.rand k * 3⌋
  else if e.getDay (e.now - (daysAgo : ℤ) * 86400) == 0 ||
      e.getDay (e.now - (daysAgo : ℤ) * 86400) == 6 then 4 + ⌊e.rand k * 4⌋
  else if e.getDay (e.now - (daysAgo : ℤ) * 86400) == 5 then 3 + ⌊e.rand k * 3⌋
  else 2 + ⌊e.rand k * 4⌋

/-- One day of generateBrewHistory: the day's brew count is drawn at k,
then a past day draws the 5% skip chance at k+1 (a skipped day emits
nothing), then the inner loop runs. -/
def genDayBrews (e : Env) (daysAgo : ℕ) (k : ℕ) : List BrewRecord × ℕ :=
  if 0 < daysAgo then
    if e.rand (k + 1) < 0.05 then ([], k + 2)
    else brewInner e daysAgo (dayBrewCount e daysAgo k).toNat (k + 2)
  else brewInner e daysAgo (dayBrewCount e daysAgo k).toNat (k + 1)

/-- The outer for-loop of generateBrewHistory over daysAgo = d, d+1, …,
d+n-1, concatenating each day's brews in push order. -/
def brewOuter (e : Env) : ℕ → ℕ → ℕ → List BrewRecord × ℕ
  | _, 0, k => ([], k)
  | d, n + 1, k =>
    let day := genDayBrews e d k
    let rest := brewOuter e (d + 1) n day.2
    (day.1 ++ rest.1, rest.2)

/-- The sort order of brews.sort ((a, b) => b.timestamp - a.timestamp):
descending by timestamp. -/
def brewDescLE (a b : BrewRecord) : Prop := b.timestamp ≤ a.timestamp

instance : DecidableRel brewDescLE :=
  fun a b => inferInstanceAs (Decidable (b.timestamp ≤ a.timestamp))

instance : IsTotal BrewRecord brewDescLE := ⟨fun a b => le_total b.timestamp a.timestamp⟩

instance : IsTrans BrewRecord brewDescLE := ⟨fun _ _ _ h1 h2 => le_trans h2 h1⟩

/-- generateBrewHistory of the source: 21 days of brews, stably sorted most
recent first. -/
def generateBrewHistory (e : Env) : List BrewRecord :=
  List.insertionSort brewDescLE (brewOuter e 0 21 0).1

/-! ## Power history -/

/-- One 5-minute power reading (PowerSample of the source). -/
structure PowerSample where
  timestamp : ℤ
  avgWatts : ℤ
  maxWatts : ℤ
  kwhConsumed : ℚ
deriving DecidableEq

/-- A usage session of generatePowerHistory: start hour, duration in hours,
intensity. -/
structure UsageSession where
  startHour : ℚ
  duration : ℚ
  intensity : ℚ
deriving DecidableEq

/-- The source's three fixed usage sessions. -/
def usageSessions : List UsageSession :=
  [⟨6.5, 2.5, 0.8⟩, ⟨14.0, 2.0, 0.5⟩, ⟨18.0, 2.0, 0.6⟩]

/-- The session loop of generatePowerHistory: the first session whose window
contains the hour of day. -/
def findSession (h : ℚ) : Option UsageSession :=
  usageSessions.find? (fun s => decide (s.startHour ≤ h) && decide (h < s.startHour + s.duration))

/-- The sample pushed by generatePowerHistory: stored watts are Math.round
of the drawn values, stored energy is rounded to four decimals. -/
def mkPowerSample (t : ℤ) (avg mx kwh : ℚ) : PowerSample :=
  ⟨t, jsRound avg, jsRound mx, round4 kwh⟩

/-- The warm-up sample: wp is the warm-up progress (minutes into the
session over 20); power tapers from 1400 W and the ceiling from 2000 W,
energy derived from the drawn average. -/
def warmSample (e : Env) (t : ℤ) (wp : ℚ) (k : ℕ) : PowerSample × ℕ :=
  (mkPowerSample t (1400 - wp * 400 + e.rand k * 300) (2000 - wp * 300 + e.rand (k + 1) * 200)
    ((1400 - wp * 400 + e.rand k * 300) * 300 / 3600000), k + 2)

/-- A banded sample: average drawn from [a0, a0+am), maximum from
[m0, m0+mm), energy derived from the drawn average.  Used by the active
(1200/500, 1800/400), idle-but-hot (250/200, 500/250), cooling (100/100,
250/150) and rare-activity (150/150, 300/200) branches. -/
def bandSample (e : Env) (t : ℤ) (a0 am m0 mm : ℚ) (k : ℕ) : PowerSample × ℕ :=
  (mkPowerSample t (a0 + e.rand k * am) (m0 + e.rand (k + 1) * mm)
    ((a0 + e.rand k * am) * 300 / 3600000), k + 2)

/-- The late-night sample: 1-3 W average, 3-6 W maximum, fixed 0.00005 kWh. -/
def nightSample (e : Env) (t : ℤ) (k : ℕ) : PowerSample × ℕ :=
  (mkPowerSample t (1 + e.rand k * 2) (3 + e.rand (k + 1) * 3) 0.00005, k + 2)

/-- The standby sample: fixed 2 W, 5 W, 0.0001 kWh (the day-time default
after an activity draw that stays at or below 0.92). -/
def standbySample (t : ℤ) (k : ℕ) : PowerSample × ℕ :=
  (mkPowerSample t 2 5 0.0001, k + 1)

/-- The in-session sample at instant t: warm-up taper within the first 20
minutes of the session, else one activity draw (at k, read once and
compared twice as the source's const random is) selects the active,
idle-but-hot or cooling band. -/
def powerSessionSample (e : Env) (t : ℤ) (s : UsageSession) (k : ℕ) : PowerSample × ℕ :=
  if (e.hourOfDay t - s.startHour) * 60 < 20 then
    warmSample e t ((e.hourOfDay t - s.startHour) * 60 / 20) k
  else if e.rand k < s.intensity then
    if e.rand k < s.intensity * 0.6 then bandSample e t 1200 500 1800 400 (k + 1)
    else bandSample e t 250 200 500 250 (k + 1)
  else bandSample e t 100 100 250 150 (k + 1)

/-- The out-of-session sample at instant t: the late-night band during
[22:00, 05:00), else an 8% chance of a rare activity spike, else standby. -/
def powerOffSample (e : Env) (t : ℤ) (k : ℕ) : PowerSample × ℕ :=
  if 22 ≤ e.hourOfDay t ∨ e.hourOfDay t < 5 then nightSample e t k
  else if 0.92 < e.rand k then bandSample e t 150 150 300 200 (k + 1)
  else standbySample t k

/-- One iteration of generatePowerHistory for loop index i (the sample at
now - i * 300), drawing from e.rand at indices k, k+1, …. -/
def genPowerSample (e : Env) (i : ℕ) (k : ℕ) : PowerSample × ℕ :=
  match findSession (e.hourOfDay (e.now - (i : ℤ) * 300)) with
  | some s => powerSessionSample e (e.now - (i : ℤ) * 300) s k
  | none => powerOffSample e (e.now - (i : ℤ) * 300) k

/-- The for-loop of generatePowerHistory, indices i = n-1 down to 0. -/
def powerGo (e : Env) : ℕ → ℕ → List PowerSample × ℕ
  | 0, k => ([], k)
  | n + 1, k =>
    let sk := genPowerSample e n k
    let rest := powerGo e n sk.2
    (sk.1 :: rest.1, rest.2)

/-- generatePowerHistory of the source: 288 samples at 5-minute steps over
the trailing 24 hours, oldest first. -/
def generatePowerHistory (e : Env) : List PowerSample :=
  (powerGo e 288 0).1

/-! ## Daily history -/

/-- One calendar day's rollup (DailySummary of the source). -/
structure DailySummary where
  date : ℤ
  shotCount : ℤ
  totalBrewTimeMs : ℤ
  totalKwh : ℚ
  onTimeMinutes : ℤ
  steamCycles : ℤ
  avgBrewTimeMs : ℤ
deriving DecidableEq

/-- The day's midnight: Math.floor (date / day) * day on the day's
timestamp. -/
def dailyMidnight (e : Env) (daysAgo : ℕ) : ℤ :=
  ⌊((e.now - (daysAgo : ℤ) * 86400 : ℤ) : ℚ) / 86400⌋ * 86400

/-- Whether the day is a weekend day (local day of week 0 or 6 at its
midnight). -/
def dailyWeekend (e : Env) (daysAgo : ℕ) : Bool :=
  e.getDay (dailyMidnight e daysAgo) == 0 || e.getDay (dailyMidnight e daysAgo) == 6

/-- Whether the day is a Friday (local day of week 5 at its midnight). -/
def dailyFriday (e : Env) (daysAgo : ℕ) : Bool :=
  e.getDay (dailyMidnight e daysAgo) == 5

/-- The day-type base shot count of generateDailyHistory, drawn at index k. -/
def dailyBaseShots (e : Env) (daysAgo : ℕ) (k : ℕ) : ℤ :=
  if dailyWeekend e daysAgo then 4 + ⌊e.rand k * 3⌋
  else if dailyFriday e daysAgo then 3 + ⌊e.rand k * 2⌋
  else 2 + ⌊e.rand k * 3⌋

/-- The zero-shot record: minimal standby energy (drawn at k) and a brief
accidental on time (drawn at k+1), no brew time, no average. -/
def genDailyZero (e : Env) (midnight : ℤ) (k : ℕ) : DailySummary × ℕ :=
  (⟨midnight, 0, 0, 0.05 + e.rand k * 0.05, ⌊e.rand (k + 1) * 20⌋, 0, 0⟩, k + 2)

/-- The record of a day with shots: average brew time 27-33 s, total =
shots * average exactly, energy from base + per-shot + session bonus +
jitter, on time from warm-up + brew + idle + jitter, steam cycles from a
weekend-biased draw.  Draws run from index k2. -/
def genDailyFull (e : Env) (midnight : ℤ) (isWeekend : Bool) (shotCount : ℤ) (k2 : ℕ) :
    DailySummary × ℕ :=
  let avgBrewTimeMs : ℤ := 27000 + ⌊e.rand k2 * 6000⌋
  let totalBrewTimeMs := shotCount * avgBrewTimeMs
  let baseKwh := 0.25 + e.rand (k2 + 1) * 0.15
  let perShotKwh := 0.06 + e.rand (k2 + 2) * 0.04
  let sessionBonus : ℚ := if 4 < shotCount then ((shotCount - 4 : ℤ) : ℚ) * 0.02 else 0
  let totalKwh := baseKwh + (shotCount : ℚ) * perShotKwh + sessionBonus + e.rand (k2 + 3) * 0.15
  let warmupMinutes : ℤ := 15 + ⌊e.rand (k2 + 4) * 10⌋
  let brewTimeMinutes : ℤ := ⌈(totalBrewTimeMs : ℚ) / 60000⌉
  let idle :=
    if 1 < shotCount then (((shotCount - 1) * (10 + ⌊e.rand (k2 + 5) * 10⌋) : ℤ), k2 + 6)
    else ((0 : ℤ), k2 + 5)
  let onTimeMinutes := warmupMinutes + brewTimeMinutes + idle.1 + ⌊e.rand idle.2 * 20⌋
  let steamProbability : ℚ := if isWeekend then 0.6 else 0.3
  let steamCycles : ℤ :=
    if e.rand (idle.2 + 1) < steamProbability then
      ⌊e.rand (idle.2 + 2) * (if 3 < shotCount then 4 else 2)⌋ + 1
    else ⌊e.rand (idle.2 + 2) * 2⌋
  (⟨midnight, shotCount, totalBrewTimeMs, round2 totalKwh, onTimeMinutes, steamCycles,
    avgBrewTimeMs⟩, idle.2 + 3)

/-- The shot-count draw (at k1) and the zero-shot test of
generateDailyHistory: today receives a +2 bonus; a zero count emits the
minimal record. -/
def genDailyCount (e : Env) (daysAgo : ℕ) (midnight : ℤ) (isWeekend : Bool) (baseShots : ℤ)
    (k1 : ℕ) : DailySummary × ℕ :=
  if baseShots + (if daysAgo = 0 then 2 else 0) + ⌊e.rand k1 * 2⌋ = 0 then
    genDailyZero e midnight (k1 + 1)
  else
    genDailyFull e midnight isWeekend
      (baseShots + (if daysAgo = 0 then 2 else 0) + ⌊e.rand k1 * 2⌋) (k1 + 1)

/-- One day of generateDailyHistory, drawing from e.rand at indices k,
k+1, …: the base count is drawn at k; a past day draws the 10% no-usage
test at k+1 (today skips that draw) and a no-usage day emits the minimal
record directly. -/
def genDaily (e : Env) (daysAgo : ℕ) (k : ℕ) : DailySummary × ℕ :=
  if 0 < daysAgo then
    if e.rand (k + 1) < 0.1 then genDailyZero e (dailyMidnight e daysAgo) (k + 2)
    else
      genDailyCount e daysAgo (dailyMidnight e daysAgo) (dailyWeekend e daysAgo)
        (dailyBaseShots e daysAgo k) (k + 2)
  else
    genDailyCount e daysAgo (dailyMidnight e daysAgo) (dailyWeekend e daysAgo)
      (dailyBaseShots e daysAgo k) (k + 1)

/-- The for-loop of generateDailyHistory over daysAgo = d, d+1, …, d+n-1,
in push order. -/
def dailyGo (e : Env) : ℕ → ℕ → ℕ → List DailySummary × ℕ
  | _, 0, k => ([], k)
  | d, n + 1, k =>
    let sk := genDaily e d k
    let rest := dailyGo e (d + 1) n sk.2
    (sk.1 :: rest.1, rest.2)

/-- generateDailyHistory of the source: 30 trailing days, reversed to
oldest first. -/
def generateDailyHistory (e : Env) : List DailySummary :=
  (dailyGo e 0 30 0).1.reverse

/-! ## Statistics snapshot -/

/-- A period rollup of the Statistics snapshot. -/
structure PeriodStats where
  shotCount : ℤ
  totalBrewTimeMs : ℤ
  avgBrewTimeMs : ℤ
  minBrewTimeMs : ℤ
  maxBrewTimeMs : ℤ
  totalKwh : ℚ
deriving DecidableEq

/-- The lifetime rollup of the Statistics snapshot. -/
structure LifetimeStats where
  totalShots : ℤ
  totalSteamCycles : ℤ
  totalKwh : ℚ
  totalOnTimeMinutes : ℤ
  totalBrewTimeMs : ℤ
  avgBrewTimeMs : ℤ
  minBrewTimeMs : ℤ
  maxBrewTimeMs : ℤ
  firstShotTimestamp : ℤ
deriving DecidableEq

/-- The maintenance counters of the Statistics snapshot. -/
structure MaintenanceStats where
  shotsSinceBackflush : ℤ
  shotsSinceGroupClean : ℤ
  shotsSinceDescale : ℤ
  lastBackflushTimestamp : ℤ
  lastGroupCleanTimestamp : ℤ
  lastDescaleTimestamp : ℤ
deriving DecidableEq

/-- The Statistics snapshot: structured fields and legacy compatibility
fields, as the source lays them out. -/
structure Statistics where
  lifetime : LifetimeStats
  daily : PeriodStats
  weekly : PeriodStats
  monthly : PeriodStats
  maintenance : MaintenanceStats
  sessionShots : ℤ
  sessionStartTimestamp : ℤ
  totalShots : ℤ
  totalSteamCycles : ℤ
  totalKwh : ℚ
  totalOnTimeMinutes : ℤ
  shotsToday : ℤ
  kwhToday : ℚ
  onTimeToday : ℤ
  shotsSinceDescale : ℤ
  shotsSinceGroupClean : ℤ
  shotsSinceBackflush : ℤ
  lastDescaleTimestamp : ℤ
  lastGroupCleanTimestamp : ℤ
  lastBackflushTimestamp : ℤ
  avgBrewTimeMs : ℤ
  minBrewTimeMs : ℤ
  maxBrewTimeMs : ℤ
  dailyCount : ℤ
  weeklyCount : ℤ
  monthlyCount : ℤ
deriving DecidableEq

/-- generateDemoStats of the source: fixed plausible constants relative to
the module-load time e.now; no random draw occurs. -/
def generateDemoStats (e : Env) : Statistics :=
  { lifetime :=
      { totalShots := 1247
        totalSteamCycles := 234
        totalKwh := 89.3
        totalOnTimeMinutes := 15420
        totalBrewTimeMs := 35539500
        avgBrewTimeMs := 28500
        minBrewTimeMs := 18000
        maxBrewTimeMs := 42000
        firstShotTimestamp := e.now - 180 * 86400 }
    daily :=
      { shotCount := 3
        totalBrewTimeMs := 85500
        avgBrewTimeMs := 28500
        minBrewTimeMs := 26000
        maxBrewTimeMs := 31000
        totalKwh := 0.95 }
    weekly :=
      { shotCount := 28
        totalBrewTimeMs := 798000
        avgBrewTimeMs := 28500
        minBrewTimeMs := 22000
        maxBrewTimeMs := 35000
        totalKwh := 7.2 }
    monthly :=
      { shotCount := 124
        totalBrewTimeMs := 3534000
        avgBrewTimeMs := 28500
        minBrewTimeMs := 21000
        maxBrewTimeMs := 38000
        totalKwh := 28.5 }
    maintenance :=
      { shotsSinceBackflush := 45
        shotsSinceGroupClean := 12
        shotsSinceDescale := 145
        lastBackflushTimestamp := e.now - 7 * 86400
        lastGroupCleanTimestamp := e.now - 2 * 86400
        lastDescaleTimestamp := e.now - 30 * 86400 }
    sessionShots := 3
    sessionStartTimestamp := e.now - 2700
    totalShots := 1247
    totalSteamCycles := 234
    totalKwh := 89.3
    totalOnTimeMinutes := 15420
    shotsToday := 3
    kwhToday := 0.95
    onTimeToday := 45
    shotsSinceDescale := 145
    shotsSinceGroupClean := 12
    shotsSinceBackflush := 45
    lastDescaleTimestamp := e.now - 30 * 86400
    lastGroupCleanTimestamp := e.now - 2 * 86400
    lastBackflushTimestamp := e.now - 7 * 86400
    avgBrewTimeMs := 28500
    minBrewTimeMs := 22000
    maxBrewTimeMs := 35000
    dailyCount := 3
    weeklyCount := 28
    monthlyCount := 124 }

/-! ## Concrete environments used by witnesses and counterexamples

They model a host running in the UTC timezone, where the local-time
conversions of Date are exact arithmetic on the epoch timestamp.
-/

/-- getHours () + getMinutes () / 60 of an instant (seconds since epoch)
for a host in the UTC timezone. -/
def utcHourOfDay (t : ℤ) : ℚ :=
  (((t.emod 86400).fdiv 3600 : ℤ) : ℚ) + (((t.emod 3600).fdiv 60 : ℤ) : ℚ) / 60

/-- getDay () of an instant for a host in the UTC timezone: the epoch fell
on a Thursday (day 4). -/
def utcDayOfWeek (t : ℤ) : ℤ := (t.fdiv 86400 + 4).emod 7

/-- A concrete environment: a UTC host whose clock reads 10:00 of the epoch
day, with every draw 0. -/
def wEnv : Env :=
  { now := 36000
    rand := fun _ => 0
    getDay := utcDayOfWeek
    hourOfDay := utcHourOfDay }

/-- The draw stream refuting the stored-value form of the yield relation:
the first brew's dose draw is 0.01 and its ratio draw is 2/35, every other
draw 0. -/
def cexRand (n : ℕ) : ℚ :=
  if n = 5 then 1/100 else if n = 6 then 2/35 else 0

/-- A concrete UTC environment whose first generated brew has raw dose
17.04 and raw ratio 1.84. -/
def cexEnv : Env :=
  { now := 0
    rand := cexRand
    getDay := utcDayOfWeek
    hourOfDay := utcHourOfDay }

/-! ## Theorems: demo-state controller -/

/-- C1.  When both demo=true and exitDemo=true are present in the navigation
context, isDemoMode returns false and leaves the durable flag cleared (and
strips exitDemo from the visible location): the exit check runs first, so
exit always wins. -/
theorem isDemoMode_exit_wins (ctx : QueryParams) (s : Option String)
    (hx : getParam ctx "exitDemo" = some "true")
    (_hd : getParam ctx "demo" = some "true") :
    isDemoMode ⟨some ctx, some s⟩ =
      .ok (false, ⟨some (deleteParam ctx "exitDemo"), some none⟩) := by
  simp [isDemoMode, hx, disableDemoMode]

/-- Witness for C1 at the concrete context demo=true, exitDemo=true with the
flag initially set. -/
theorem isDemoMode_exit_wins_witness :
    isDemoMode ⟨some [("demo", "true"), ("exitDemo", "true")], some (some "true")⟩ =
      .ok (false, ⟨some [("demo", "true")], some none⟩) := by
  simpa [deleteParam] using
    isDemoMode_exit_wins [("demo", "true"), ("exitDemo", "true")] (some "true") rfl rfl

/-- C7.  Demo-state queries and activation are idempotent: enabling twice
leaves the flag "true" (the second enable is a no-op); with neither the demo
nor the exitDemo parameter present, isDemoMode reads the flag and changes
nothing, so repeated calls return the same value; and a repeated isDemoMode
call with the same context reproduces the first call's value and end
store. -/
theorem demo_state_idempotent :
    (∀ h h1 : Host, enableDemoMode h = .ok h1 →
      enableDemoMode h1 = .ok h1 ∧ h1.store = some (some "true")) ∧
    (∀ (ctx : QueryParams) (s : Option String),
      getParam ctx "demo" = none → getParam ctx "exitDemo" = none →
      isDemoMode ⟨some ctx, some s⟩ = .ok (decide (s = some "true"), ⟨some ctx, some s⟩)) ∧
    (∀ (ctx : QueryParams) (s : Option String) (b : Bool) (w : Option QueryParams)
      (s1 : Option (Option String)),
      isDemoMode ⟨some ctx, some s⟩ = .ok (b, ⟨w, s1⟩) →
      ∃ w1, isDemoMode ⟨some ctx, s1⟩ = .ok (b, ⟨w1, s1⟩)) := by
  refine ⟨?_, ?_, ?_⟩
  · intro h h1 he
    cases hs : h.store with
    | none => simp [enableDemoMode, hs] at he
    | some v =>
      simp only [enableDemoMode, hs] at he
      cases he
      constructor
      · simp [enableDemoMode]
      · rfl
  · intro ctx s hd hx
    simp [isDemoMode, hd, hx]
  · intro ctx s b w s1 hcall
    by_cases hx : getParam ctx "exitDemo" = some "true"
    · simp [isDemoMode, hx, disableDemoMode] at hcall
      obtain ⟨hb, hw, hs⟩ := hcall
      subst hb
      subst hs
      exact ⟨some (deleteParam ctx "exitDemo"), by simp [isDemoMode, hx, disableDemoMode]⟩
    · by_cases hd : getParam ctx "demo" = some "true"
      · simp [isDemoMode, hx, hd, enableDemoMode] at hcall
        obtain ⟨hb, hw, hs⟩ := hcall
        subst hb
        subst hs
        exact ⟨some ctx, by simp [isDemoMode, hx, hd, enableDemoMode]⟩
      · simp [isDemoMode, hx, hd] at hcall
        obtain ⟨hb, hw, hs⟩ := hcall
        subst hb
        subst hs
        exact ⟨some ctx, by simp [isDemoMode, hx, hd]⟩

/-- Witness for C7: a double enable from a cleared store, a query with no
parameters, and a repeated query after an exit both evaluated concretely. -/
theorem demo_state_idempotent_witness :
    (enableDemoMode ⟨some [], some none⟩ = .ok ⟨some [], some (some "true")⟩ ∧
      enableDemoMode ⟨some [], some (some "true")⟩ = .ok ⟨some [], some (some "true")⟩) ∧
    isDemoMode ⟨some [], some (some "true")⟩ = .ok (true, ⟨some [], some (some "true")⟩) ∧
    (∃ w1, isDemoMode ⟨some [("exitDemo", "true")], some none⟩ = .ok (false, ⟨w1, some none⟩)) := by
  refine ⟨⟨rfl, (demo_state_idempotent.1 ⟨some [], some none⟩ _ rfl).1⟩, ?_, ?_⟩
  · simpa using demo_state_idempotent.2.1 [] (some "true") rfl rfl
  · exact demo_state_idempotent.2.2 [("exitDemo", "true")] (some "true") false
      (some (deleteParam [("exitDemo", "true")] "exitDemo")) (some none) rfl

/-- C8.  With the durable store unavailable (as when no window exists in a
server-side environment), every isDemoMode path reaches an unguarded
localStorage access and throws instead of returning false: the source
guards window in initDemoModeFromUrl but isDemoMode's storage reads are
unguarded. -/
theorem isDemoMode_throws_without_storage (w : Option QueryParams) :
    isDemoMode ⟨w, none⟩ = .error () := by
  cases w with
  | none => rfl
  | some ctx =>
    simp only [isDemoMode, disableDemoMode, enableDemoMode]
    split_ifs <;> rfl

/-! ## Theorems: demo logs -/

/-- C9.  getDemoLogs returns exactly ten entries, each carrying a level, a
message and a source tag, every entry stamped within the five minutes
preceding the call, ordered oldest first. -/
theorem getDemoLogs_shape (nowMs : ℤ) :
    (getDemoLogs nowMs).length = 10 ∧
    (∀ l ∈ getDemoLogs nowMs,
      nowMs - 5 * 60000 ≤ l.id ∧ l.id ≤ nowMs ∧
      l.level ≠ "" ∧ l.message ≠ "" ∧ l.source ≠ "") ∧
    (getDemoLogs nowMs).Pairwise (fun a b => a.id < b.id) := by
  refine ⟨rfl, ?_, ?_⟩
  · intro l hl
    fin_cases hl <;> refine ⟨?_, ?_, ?_, ?_, ?_⟩ <;> simp <;> omega
  · simp only [getDemoLogs, List.pairwise_cons]
    refine ⟨?_, ?_, ?_, ?_, ?_, ?_, ?_, ?_, ?_, ?_, List.Pairwise.nil⟩ <;>
      (intro a ha) <;> fin_cases ha <;> simp <;> omega

/-! ## Theorems: statistics snapshot -/

/-- Counterexample for C10: the legacy top-level minBrewTimeMs (22000) does
not equal its structured lifetime counterpart (18000); it equals the weekly
rollup's minimum instead. -/
theorem generateDemoStats_legacy_min_mismatch :
    (generateDemoStats wEnv).minBrewTimeMs ≠ (generateDemoStats wEnv).lifetime.minBrewTimeMs := by
  decide!

/-- C10 as amended.  generateDemoStats draws no randomness: its value
depends only on the module-load clock, so two environments with the same
clock yield identical Statistics; and every legacy compatibility field
equals its structured counterpart except the top-level min/maxBrewTimeMs,
which carry the weekly rollup's extrema rather than the lifetime ones. -/
theorem generateDemoStats_deterministic_legacy (t : ℤ) (r1 r2 : ℕ → ℚ)
    (g1 g2 : ℤ → ℤ) (o1 o2 : ℤ → ℚ) :
    generateDemoStats ⟨t, r1, g1, o1⟩ = generateDemoStats ⟨t, r2, g2, o2⟩ ∧
    ((generateDemoStats ⟨t, r1, g1, o1⟩).totalShots =
        (generateDemoStats ⟨t, r1, g1, o1⟩).lifetime.totalShots ∧
      (generateDemoStats ⟨t, r1, g1, o1⟩).totalSteamCycles =
        (generateDemoStats ⟨t, r1, g1, o1⟩).lifetime.totalSteamCycles ∧
      (generateDemoStats ⟨t, r1, g1, o1⟩).totalKwh =
        (generateDemoStats ⟨t, r1, g1, o1⟩).lifetime.totalKwh ∧
      (generateDemoStats ⟨t, r1, g1, o1⟩).totalOnTimeMinutes =
        (generateDemoStats ⟨t, r1, g1, o1⟩).lifetime.totalOnTimeMinutes ∧
      (generateDemoStats ⟨t, r1, g1, o1⟩).avgBrewTimeMs =
        (generateDemoStats ⟨t, r1, g1, o1⟩).lifetime.avgBrewTimeMs ∧
      (generateDemoStats ⟨t, r1, g1, o1⟩).shotsToday =
        (generateDemoStats ⟨t, r1, g1, o1⟩).daily.shotCount ∧
      (generateDemoStats ⟨t, r1, g1, o1⟩).kwhToday =
        (generateDemoStats ⟨t, r1, g1, o1⟩).daily.totalKwh ∧
      (generateDemoStats ⟨t, r1, g1, o1⟩).dailyCount =
        (generateDemoStats ⟨t, r1, g1, o1⟩).daily.shotCount ∧
      (generateDemoStats ⟨t, r1, g1, o1⟩).weeklyCount =
        (generateDemoStats ⟨t, r1, g1, o1⟩).weekly.shotCount ∧
      (generateDemoStats ⟨t, r1, g1, o1⟩).monthlyCount =
        (generateDemoStats ⟨t, r1, g1, o1⟩).monthly.shotCount ∧
      (generateDemoStats ⟨t, r1, g1, o1⟩).shotsSinceDescale =
        (generateDemoStats ⟨t, r1, g1, o1⟩).maintenance.shotsSinceDescale ∧
      (generateDemoStats ⟨t, r1, g1, o1⟩).shotsSinceGroupClean =
        (generateDemoStats ⟨t, r1, g1, o1⟩).maintenance.shotsSinceGroupClean ∧
      (generateDemoStats ⟨t, r1, g1, o1⟩).shotsSinceBackflush =
        (generateDemoStats ⟨t, r1, g1, o1⟩).maintenance.shotsSinceBackflush ∧
      (generateDemoStats ⟨t, r1, g1, o1⟩).lastDescaleTimestamp =
        (generateDemoStats ⟨t, r1, g1, o1⟩).maintenance.lastDescaleTimestamp ∧
      (generateDemoStats ⟨t, r1, g1, o1⟩).lastGroupCleanTimestamp =
        (generateDemoStats ⟨t, r1, g1, o1⟩).maintenance.lastGroupCleanTimestamp ∧
      (generateDemoStats ⟨t, r1, g1, o1⟩).lastBackflushTimestamp =
        (generateDemoStats ⟨t, r1, g1, o1⟩).maintenance.lastBackflushTimestamp ∧
      (generateDemoStats ⟨t, r1, g1, o1⟩).minBrewTimeMs =
        (generateDemoStats ⟨t, r1, g1, o1⟩).weekly.minBrewTimeMs ∧
      (generateDemoStats ⟨t, r1, g1, o1⟩).maxBrewTimeMs =
        (generateDemoStats ⟨t, r1, g1, o1⟩).weekly.maxBrewTimeMs) :=
  ⟨rfl, rfl, rfl, rfl, rfl, rfl, rfl, rfl, rfl, rfl, rfl, rfl, rfl, rfl, rfl, rfl, rfl,
    rfl, rfl⟩

/-! ## Theorems: daily history -/

/-- The midnight of day daysAgo is the global midnight shifted back a whole
day per day of age. -/
theorem dailyMidnight_eq (e : Env) (d : ℕ) :
    dailyMidnight e d = (⌊(e.now : ℚ) / 86400⌋ - d) * 86400 := by
  unfold dailyMidnight
  have hcast : ((e.now - (d : ℤ) * 86400 : ℤ) : ℚ) / 86400 = (e.now : ℚ) / 86400 - (d : ℤ) := by
    push_cast
    ring
  rw [hcast, Int.floor_sub_int]

/-- The consistency property claimed of a daily summary. -/
theorem genDailyZero_consistent (e : Env) (m : ℤ) (k : ℕ) :
    (((genDailyZero e m k).1).shotCount = 0 →
      ((genDailyZero e m k).1).totalBrewTimeMs = 0 ∧ ((genDailyZero e m k).1).avgBrewTimeMs = 0) ∧
    (0 < ((genDailyZero e m k).1).shotCount →
      ((genDailyZero e m k).1).totalBrewTimeMs =
        ((genDailyZero e m k).1).shotCount * ((genDailyZero e m k).1).avgBrewTimeMs) :=
  ⟨fun _ => ⟨rfl, rfl⟩, fun h => absurd h (lt_irrefl 0)⟩

/-- A full daily record with a non-zero shot count is consistent: its brew
total is exactly shotCount * avgBrewTimeMs. -/
theorem genDailyFull_consistent (e : Env) (m : ℤ) (w : Bool) (s : ℤ) (k2 : ℕ) (hne : s ≠ 0) :
    (((genDailyFull e m w s k2).1).shotCount = 0 →
      ((genDailyFull e m w s k2).1).totalBrewTimeMs = 0 ∧
        ((genDailyFull e m w s k2).1).avgBrewTimeMs = 0) ∧
    (0 < ((genDailyFull e m w s k2).1).shotCount →
      ((genDailyFull e m w s k2).1).totalBrewTimeMs =
        ((genDailyFull e m w s k2).1).shotCount * ((genDailyFull e m w s k2).1).avgBrewTimeMs) :=
  ⟨fun h => absurd h hne, fun _ => rfl⟩

/-- Every summary genDailyCount emits is consistent. -/
theorem genDailyCount_consistent (e : Env) (d : ℕ) (m : ℤ) (w : Bool) (b : ℤ) (k1 : ℕ) :
    (((genDailyCount e d m w b k1).1).shotCount = 0 →
      ((genDailyCount e d m w b k1).1).totalBrewTimeMs = 0 ∧
        ((genDailyCount e d m w b k1).1).avgBrewTimeMs = 0) ∧
    (0 < ((genDailyCount e d m w b k1).1).shotCount →
      ((genDailyCount e d m w b k1).1).totalBrewTimeMs =
        ((genDailyCount e d m w b k1).1).shotCount *
          ((genDailyCount e d m w b k1).1).avgBrewTimeMs) := by
  unfold genDailyCount
  split_ifs with h1 h2 h3
  · exact genDailyZero_consistent e m (k1 + 1)
  · exact genDailyFull_consistent e m w _ (k1 + 1) h2
  · exact genDailyZero_consistent e m (k1 + 1)
  · exact genDailyFull_consistent e m w _ (k1 + 1) h3

/-- Every summary genDaily emits is internally consistent: a zero-shot day
carries zero brew time and zero average, and a day with shots carries
exactly shotCount * avgBrewTimeMs of brew time. -/
theorem genDaily_consistent (e : Env) (d k : ℕ) :
    (((genDaily e d k).1).shotCount = 0 →
      ((genDaily e d k).1).totalBrewTimeMs = 0 ∧ ((genDaily e d k).1).avgBrewTimeMs = 0) ∧
    (0 < ((genDaily e d k).1).shotCount →
      ((genDaily e d k).1).totalBrewTimeMs =
        ((genDaily e d k).1).shotCount * ((genDaily e d k).1).avgBrewTimeMs) := by
  unfold genDaily
  split_ifs
  · exact genDailyZero_consistent e _ (k + 2)
  · exact genDailyCount_consistent e d _ _ _ (k + 2)
  · exact genDailyCount_consistent e d _ _ _ (k + 1)

/-- Every summary genDailyCount emits carries the midnight it is given. -/
theorem genDailyCount_date (e : Env) (d : ℕ) (m : ℤ) (w : Bool) (b : ℤ) (k1 : ℕ) :
    ((genDailyCount e d m w b k1).1).date = m := by
  unfold genDailyCount
  split_ifs <;> rfl

/-- Every summary genDaily emits carries the day's midnight. -/
theorem genDaily_date (e : Env) (d k : ℕ) :
    ((genDaily e d k).1).date = dailyMidnight e d := by
  unfold genDaily
  split_ifs
  · rfl
  · exact genDailyCount_date e d _ _ _ (k + 2)
  · exact genDailyCount_date e d _ _ _ (k + 1)

/-- dailyGo produces one summary per day. -/
theorem dailyGo_length (e : Env) : ∀ (n d k : ℕ), ((dailyGo e d n k).1).length = n
  | 0, _, _ => rfl
  | n + 1, d, k => by simp [dailyGo, dailyGo_length e n]

/-- Every summary of dailyGo comes from genDaily at some day index. -/
theorem dailyGo_mem (e : Env) :
    ∀ (n d k : ℕ), ∀ s ∈ (dailyGo e d n k).1, ∃ d' k', s = (genDaily e d' k').1
  | 0, _, _, s, hs => absurd hs (List.not_mem_nil s)
  | n + 1, d, k, s, hs => by
    rcases List.mem_cons.mp hs with h | h
    · exact ⟨d, k, h⟩
    · exact dailyGo_mem e n (d + 1) (genDaily e d k).2 s h

/-- Every summary of dailyGo is dated at the midnight of one of its days. -/
theorem dailyGo_dates (e : Env) :
    ∀ (n d k : ℕ), ∀ s ∈ (dailyGo e d n k).1,
      ∃ j : ℕ, j < n ∧ s.date = (⌊((e.now : ℚ)) / 86400⌋ - (d + j : ℕ)) * 86400
  | 0, _, _, s, hs => absurd hs (List.not_mem_nil s)
  | n + 1, d, k, s, hs => by
    rcases List.mem_cons.mp hs with h | h
    · refine ⟨0, Nat.succ_pos n, ?_⟩
      subst h
      rw [genDaily_date, dailyMidnight_eq]
      norm_num
    · obtain ⟨j, hj, hd⟩ := dailyGo_dates e n (d + 1) (genDaily e d k).2 s h
      refine ⟨j + 1, by omega, ?_⟩
      rw [hd]
      push_cast
      ring

/-- dailyGo lists the summaries newest first: dates strictly decrease. -/
theorem dailyGo_pairwise (e : Env) :
    ∀ (n d k : ℕ), List.Pairwise (fun a b => b.date < a.date) (dailyGo e d n k).1
  | 0, _, _ => List.Pairwise.nil
  | n + 1, d, k => by
    refine List.Pairwise.cons ?_ (dailyGo_pairwise e n (d + 1) (genDaily e d k).2)
    intro s hs
    obtain ⟨j, _, hdate⟩ := dailyGo_dates e n (d + 1) (genDaily e d k).2 s hs
    rw [hdate, genDaily_date, dailyMidnight_eq]
    omega

/-- C4.  generateDailyHistory returns 30 summaries ordered ascending by
date (oldest first); every summary with shotCount = 0 has zero total and
zero average brew time, and every summary with shots satisfies
totalBrewTimeMs = shotCount * avgBrewTimeMs exactly. -/
theorem generateDailyHistory_consistent (e : Env) :
    (generateDailyHistory e).length = 30 ∧
    (∀ s ∈ generateDailyHistory e,
      (s.shotCount = 0 → s.totalBrewTimeMs = 0 ∧ s.avgBrewTimeMs = 0) ∧
      (0 < s.shotCount → s.totalBrewTimeMs = s.shotCount * s.avgBrewTimeMs)) ∧
    (generateDailyHistory e).Pairwise (fun a b => a.date < b.date) := by
  refine ⟨?_, ?_, ?_⟩
  · rw [generateDailyHistory, List.length_reverse, dailyGo_length]
  · intro s hs
    rw [generateDailyHistory, List.mem_reverse] at hs
    obtain ⟨d', k', rfl⟩ := dailyGo_mem e 30 0 0 s hs
    exact genDaily_consistent e d' k'
  · rw [generateDailyHistory, List.pairwise_reverse]
    exact dailyGo_pairwise e 30 0 0

/-! ## Theorems: power history -/

/-- Math.round is monotone, so rounding preserves the order of the drawn
watt values. -/
theorem jsRound_mono {a b : ℚ} (h : a ≤ b) : jsRound a ≤ jsRound b :=
  Int.floor_le_floor (by linarith)

/-- The all-zero draw stream satisfies the Math.random contract. -/
theorem wEnv_rand_ok : RandOK wEnv.rand := by
  intro n
  show (0 : ℚ) ≤ 0 ∧ (0 : ℚ) < 1
  norm_num

/-- A warm-up sample's maximum never falls below its average. -/
theorem warmSample_avg_le_max (e : Env) (t : ℤ) (wp : ℚ) (k : ℕ) (hr : RandOK e.rand)
    (hwp : 0 ≤ wp) :
    (warmSample e t wp k).1.avgWatts ≤ (warmSample e t wp k).1.maxWatts :=
  jsRound_mono (by linarith [(hr k).1, (hr k).2, (hr (k + 1)).1])

/-- A banded sample's maximum never falls below its average when the
maximum band starts above the average band's ceiling. -/
theorem bandSample_avg_le_max (e : Env) (t : ℤ) (a0 am m0 mm : ℚ) (k : ℕ) (hr : RandOK e.rand)
    (ham : 0 ≤ am) (hmm : 0 ≤ mm) (hle : a0 + am ≤ m0) :
    (bandSample e t a0 am m0 mm k).1.avgWatts ≤ (bandSample e t a0 am m0 mm k).1.maxWatts := by
  have h1 : e.rand k * am ≤ am := by
    nlinarith [mul_nonneg (sub_nonneg.mpr (le_of_lt (hr k).2)) ham]
  have h2 : 0 ≤ e.rand (k + 1) * mm := mul_nonneg (hr (k + 1)).1 hmm
  exact jsRound_mono (by linarith)

/-- A late-night sample's maximum never falls below its average. -/
theorem nightSample_avg_le_max (e : Env) (t : ℤ) (k : ℕ) (hr : RandOK e.rand) :
    (nightSample e t k).1.avgWatts ≤ (nightSample e t k).1.maxWatts := by
  have h1 : e.rand k * 2 ≤ 2 := by
    nlinarith [mul_nonneg (sub_nonneg.mpr (le_of_lt (hr k).2)) (by norm_num : (0 : ℚ) ≤ 2)]
  have h2 : 0 ≤ e.rand (k + 1) * 3 := mul_nonneg (hr (k + 1)).1 (by norm_num)
  exact jsRound_mono (by linarith)

/-- Every in-session sample is stamped at its instant and keeps max at or
above avg; the warm-up case uses that the session found contains the hour. -/
theorem powerSessionSample_spec (e : Env) (t : ℤ) (s : UsageSession) (k : ℕ)
    (hr : RandOK e.rand) (hsh : s.startHour ≤ e.hourOfDay t) :
    (powerSessionSample e t s k).1.timestamp = t ∧
    (powerSessionSample e t s k).1.avgWatts ≤ (powerSessionSample e t s k).1.maxWatts := by
  unfold powerSessionSample
  split_ifs with h1 h2 h3
  · exact ⟨rfl, warmSample_avg_le_max e t _ k hr
      (div_nonneg (by nlinarith [sub_nonneg.mpr hsh]) (by norm_num))⟩
  · exact ⟨rfl, bandSample_avg_le_max e t 1200 500 1800 400 (k + 1) hr (by norm_num)
      (by norm_num) (by norm_num)⟩
  · exact ⟨rfl, bandSample_avg_le_max e t 250 200 500 250 (k + 1) hr (by norm_num)
      (by norm_num) (by norm_num)⟩
  · exact ⟨rfl, bandSample_avg_le_max e t 100 100 250 150 (k + 1) hr (by norm_num)
      (by norm_num) (by norm_num)⟩

/-- Every out-of-session sample is stamped at its instant and keeps max at
or above avg. -/
theorem powerOffSample_spec (e : Env) (t : ℤ) (k : ℕ) (hr : RandOK e.rand) :
    (powerOffSample e t k).1.timestamp = t ∧
    (powerOffSample e t k).1.avgWatts ≤ (powerOffSample e t k).1.maxWatts := by
  unfold powerOffSample
  split_ifs with h1 h2
  · exact ⟨rfl, nightSample_avg_le_max e t k hr⟩
  · exact ⟨rfl, bandSample_avg_le_max e t 150 150 300 200 (k + 1) hr (by norm_num)
      (by norm_num) (by norm_num)⟩
  · exact ⟨rfl, jsRound_mono (by norm_num)⟩

/-- Every generated power sample is stamped at now - i * 300 and keeps max
at or above avg. -/
theorem genPowerSample_spec (e : Env) (i k : ℕ) (hr : RandOK e.rand) :
    (genPowerSample e i k).1.timestamp = e.now - (i : ℤ) * 300 ∧
    (genPowerSample e i k).1.avgWatts ≤ (genPowerSample e i k).1.maxWatts := by
  unfold genPowerSample
  cases hfs : findSession (e.hourOfDay (e.now - (i : ℤ) * 300)) with
  | none => exact powerOffSample_spec e _ k hr
  | some s =>
    have hp := List.find?_some hfs
    simp only [Bool.and_eq_true, decide_eq_true_eq] at hp
    exact powerSessionSample_spec e _ s k hr hp.1

/-- powerGo yields one sample per loop index. -/
theorem powerGo_length (e : Env) : ∀ (n k : ℕ), ((powerGo e n k).1).length = n
  | 0, _ => rfl
  | n + 1, k => by simp [powerGo, powerGo_length e n]

/-- Every sample of powerGo comes from genPowerSample at some index. -/
theorem powerGo_mem (e : Env) :
    ∀ (n k : ℕ), ∀ s ∈ (powerGo e n k).1, ∃ i k', s = (genPowerSample e i k').1
  | 0, _, s, hs => absurd hs (List.not_mem_nil s)
  | n + 1, k, s, hs => by
    rcases List.mem_cons.mp hs with h | h
    · exact ⟨n, k, h⟩
    · exact powerGo_mem e n (genPowerSample e n k).2 s h

/-- The first sample of a non-empty powerGo run is stamped n-1 intervals
back. -/
theorem powerGo_head (e : Env) (hr : RandOK e.rand) :
    ∀ (n k : ℕ), ∀ hd ∈ ((powerGo e n k).1).head?, hd.timestamp = e.now - (n - 1 : ℕ) * 300
  | 0, _, hd, hhd => absurd hhd (by simp [powerGo])
  | n + 1, k, hd, hhd => by
    simp only [powerGo, List.head?_cons, Option.mem_some_iff] at hhd
    subst hhd
    simpa using (genPowerSample_spec e n k hr).1

/-- powerGo's timestamps step by exactly 300 seconds. -/
theorem powerGo_chain (e : Env) (hr : RandOK e.rand) :
    ∀ (n k : ℕ), List.Chain' (fun a b => b.timestamp = a.timestamp + 300) (powerGo e n k).1
  | 0, _ => trivial
  | n + 1, k => by
    rw [show (powerGo e (n + 1) k).1 =
        (genPowerSample e n k).1 :: (powerGo e n (genPowerSample e n k).2).1 from rfl,
      List.chain'_cons']
    refine ⟨?_, powerGo_chain e hr n (genPowerSample e n k).2⟩
    intro y hy
    cases n with
    | zero => simp [powerGo] at hy
    | succ m =>
      have hts := powerGo_head e hr (m + 1) (genPowerSample e (m + 1) k).2 y hy
      rw [hts, (genPowerSample_spec e (m + 1) k hr).1]
      push_cast [Nat.add_sub_cancel]
      ring

/-- C2.  generatePowerHistory returns exactly 288 samples; consecutive
timestamps differ by exactly 300 seconds (so they increase strictly with a
constant step); and every sample's maxWatts is at least its avgWatts. -/
theorem generatePowerHistory_shape (e : Env) (hr : RandOK e.rand) :
    (generatePowerHistory e).length = 288 ∧
    List.Chain' (fun a b => b.timestamp = a.timestamp + 300) (generatePowerHistory e) ∧
    ∀ s ∈ generatePowerHistory e, s.avgWatts ≤ s.maxWatts := by
  refine ⟨powerGo_length e 288 0, powerGo_chain e hr 288 0, ?_⟩
  intro s hs
  obtain ⟨i, k', rfl⟩ := powerGo_mem e 288 0 s hs
  exact (genPowerSample_spec e i k' hr).2

/-- Witness for C2 at the concrete all-zero environment. -/
theorem generatePowerHistory_shape_witness :
    RandOK wEnv.rand ∧
    ((generatePowerHistory wEnv).length = 288 ∧
      List.Chain' (fun a b => b.timestamp = a.timestamp + 300) (generatePowerHistory wEnv) ∧
      ∀ s ∈ generatePowerHistory wEnv, s.avgWatts ≤ s.maxWatts) :=
  ⟨wEnv_rand_ok, generatePowerHistory_shape wEnv wEnv_rand_ok⟩

/-- In session the sample's energy always derives from the raw drawn
wattage, the same raw value whose rounding is stored as avgWatts. -/
theorem powerSessionSample_kwh (e : Env) (t : ℤ) (s : UsageSession) (k : ℕ) :
    ∃ w : ℚ, (powerSessionSample e t s k).1.avgWatts = jsRound w ∧
      ((powerSessionSample e t s k).1.kwhConsumed = round4 (w * 300 / 3600000) ∨
        (powerSessionSample e t s k).1.kwhConsumed = 1 / 10000) := by
  unfold powerSessionSample
  split_ifs
  · exact ⟨_, rfl, Or.inl rfl⟩
  · exact ⟨_, rfl, Or.inl rfl⟩
  · exact ⟨_, rfl, Or.inl rfl⟩
  · exact ⟨_, rfl, Or.inl rfl⟩

/-- Out of session the sample's energy either derives from the raw drawn
wattage (rare activity) or is the fixed standby constant. -/
theorem powerOffSample_kwh (e : Env) (t : ℤ) (k : ℕ) :
    ∃ w : ℚ, (powerOffSample e t k).1.avgWatts = jsRound w ∧
      ((powerOffSample e t k).1.kwhConsumed = round4 (w * 300 / 3600000) ∨
        (powerOffSample e t k).1.kwhConsumed = 1 / 10000) := by
  unfold powerOffSample
  split_ifs
  · exact ⟨1 + e.rand k * 2, rfl,
      Or.inr (show round4 0.00005 = 1 / 10000 from by decide!)⟩
  · exact ⟨_, rfl, Or.inl rfl⟩
  · exact ⟨2, rfl, Or.inr (show round4 0.0001 = 1 / 10000 from by decide!)⟩

/-- Every generated power sample stores as avgWatts the rounding of a raw
wattage w, and stores as kwhConsumed either the 4-decimal rounding of
w * 300 / 3600000 for that same raw w, or the fixed standby constant
0.0001 (the night constant 0.00005 also rounds to 0.0001). -/
theorem genPowerSample_kwh (e : Env) (i k : ℕ) :
    ∃ w : ℚ, (genPowerSample e i k).1.avgWatts = jsRound w ∧
      ((genPowerSample e i k).1.kwhConsumed = round4 (w * 300 / 3600000) ∨
        (genPowerSample e i k).1.kwhConsumed = 1 / 10000) := by
  unfold genPowerSample
  cases hfs : findSession (e.hourOfDay (e.now - (i : ℤ) * 300)) with
  | some s => exact powerSessionSample_kwh e _ s k
  | none => exact powerOffSample_kwh e _ k

/-- C6 as amended.  For every sample of generatePowerHistory there is a raw
wattage w with avgWatts = round (w) such that kwhConsumed is
round4 (w * 300 / 3600000) - derived from the raw, pre-rounding wattage -
in the branches that compute energy, and the fixed standby constant 0.0001
otherwise. -/
theorem power_kwh_from_raw_watts (e : Env) :
    ∀ s ∈ generatePowerHistory e, ∃ w : ℚ,
      s.avgWatts = jsRound w ∧
      (s.kwhConsumed = round4 (w * 300 / 3600000) ∨ s.kwhConsumed = 1 / 10000) := by
  intro s hs
  obtain ⟨i, k', rfl⟩ := powerGo_mem e 288 0 s hs
  exact genPowerSample_kwh e i k'

/-- Witness for C6 as amended, at a concrete sample of the all-zero
environment: its stored average 2 W is the rounding of the raw wattage 2
and its stored energy is the standby constant. -/
theorem power_kwh_from_raw_watts_witness :
    (⟨36000, 2, 5, 1 / 10000⟩ : PowerSample) ∈ generatePowerHistory wEnv ∧
    (∃ w : ℚ, (⟨36000, 2, 5, 1 / 10000⟩ : PowerSample).avgWatts = jsRound w ∧
      ((⟨36000, 2, 5, 1 / 10000⟩ : PowerSample).kwhConsumed = round4 (w * 300 / 3600000) ∨
        (⟨36000, 2, 5, 1 / 10000⟩ : PowerSample).kwhConsumed = 1 / 10000)) := by
  have hm : (⟨36000, 2, 5, 1 / 10000⟩ : PowerSample) ∈ generatePowerHistory wEnv := by decide!
  exact ⟨hm, power_kwh_from_raw_watts wEnv _ hm⟩

/-- Counterexample for C6 as stated: in the all-zero environment every
sample is a standby sample storing avgWatts = 2 and kwhConsumed = 0.0001,
but round4 (2 * 300 / 3600000) = 0.0002, so kwhConsumed is not derived
from the stored avgWatts. -/
theorem power_kwh_stored_relation_fails :
    RandOK wEnv.rand ∧
    ¬ (∀ s ∈ generatePowerHistory wEnv,
        s.kwhConsumed = round4 ((s.avgWatts : ℚ) * 300 / 3600000)) := by
  refine ⟨wEnv_rand_ok, fun hall => ?_⟩
  have hm : (⟨36000, 2, 5, 1 / 10000⟩ : PowerSample) ∈ generatePowerHistory wEnv := by
    decide!
  exact absurd (hall _ hm) (by decide!)

/-! ## Theorems: brew history -/

/-- Every typical consumption hour lies between 6.5 and 19. -/
theorem brewTimes_bounds : ∀ q ∈ brewTimes, (6.5 : ℚ) ≤ q ∧ q ≤ 19 := by decide!

/-- Every drawn brew hour lies between 6.5 and 19. -/
theorem brewHourOf_bounds (e : Env) (k : ℕ) (hr : RandOK e.rand) :
    (6.5 : ℚ) ≤ brewHourOf e k ∧ brewHourOf e k ≤ 19 := by
  unfold brewHourOf
  split_ifs
  · constructor <;> nlinarith [(hr (k + 1)).1, (hr (k + 1)).2]
  · constructor <;> nlinarith [(hr (k + 1)).1, (hr (k + 1)).2]
  · constructor <;> nlinarith [(hr (k + 1)).1, (hr (k + 1)).2]
  · have hlt : (⌊e.rand (k + 1) * 19⌋).toNat < brewTimes.length := by
      have h19 : ⌊e.rand (k + 1) * 19⌋ < 19 :=
        Int.floor_lt.mpr (by push_cast; nlinarith [(hr (k + 1)).1, (hr (k + 1)).2])
      simp only [brewTimes, List.length_cons, List.length_nil]
      omega
    have hmem : brewTimes.getD (⌊e.rand (k + 1) * 19⌋).toNat 0 ∈ brewTimes := by
      rw [List.getD_eq_getElem brewTimes 0 hlt]
      exact List.getElem_mem hlt
    exact brewTimes_bounds _ hmem

/-- The timestamp a brew record stores. -/
theorem genBrew_timestamp (e : Env) (d k : ℕ) :
    (genBrew e d k).1.timestamp =
      (e.now : ℚ) - (d : ℚ) * 86400 - (24 - brewHourOf e k) * 3600 +
        ((⌊e.rand (k + 2) * 3600⌋ : ℤ) : ℚ) := rfl

/-- Every brew of day daysAgo ≤ 20 is stamped within the trailing 21 days. -/
theorem genBrew_timestamp_bounds (e : Env) (hr : RandOK e.rand) (d k : ℕ) (hd : d ≤ 20) :
    (e.now : ℚ) - 21 * 86400 ≤ (genBrew e d k).1.timestamp ∧
      (genBrew e d k).1.timestamp ≤ (e.now : ℚ) := by
  obtain ⟨hbl, hbu⟩ := brewHourOf_bounds e k hr
  have hf0 : (0 : ℚ) ≤ ((⌊e.rand (k + 2) * 3600⌋ : ℤ) : ℚ) := by
    exact_mod_cast Int.floor_nonneg.mpr (mul_nonneg (hr (k + 2)).1 (by norm_num))
  have hf1 : ((⌊e.rand (k + 2) * 3600⌋ : ℤ) : ℚ) ≤ e.rand (k + 2) * 3600 := Int.floor_le _
  have hf2 : e.rand (k + 2) * 3600 < 3600 := by nlinarith [(hr (k + 2)).1, (hr (k + 2)).2]
  have hdq : (d : ℚ) ≤ 20 := by exact_mod_cast hd
  have hd0 : (0 : ℚ) ≤ (d : ℚ) := Nat.cast_nonneg d
  rw [genBrew_timestamp]
  constructor <;> linarith

/-- The raw dose and ratio draws behind every stored brew record: the
stored dose and ratio are their roundings and the stored yield is the
rounding of their product, taken before either factor is rounded. -/
theorem genBrew_yield (e : Env) (hr : RandOK e.rand) (d k : ℕ) :
    ∃ dq rq : ℚ, 17 ≤ dq ∧ dq < 21 ∧ (1.8 : ℚ) ≤ rq ∧ rq < 2.5 ∧
      (genBrew e d k).1.doseWeight = round1 dq ∧ (genBrew e d k).1.ratio = round1 rq ∧
      (genBrew e d k).1.yieldWeight = round1 (dq * rq) := by
  refine ⟨17 + e.rand (k + 2 + 2) * 4, 1.8 + e.rand (k + 2 + 3) * 0.7,
    ?_, ?_, ?_, ?_, rfl, rfl, rfl⟩
  · linarith [mul_nonneg (hr (k + 2 + 2)).1 (by norm_num : (0 : ℚ) ≤ 4)]
  · nlinarith [(hr (k + 2 + 2)).1, (hr (k + 2 + 2)).2]
  · linarith [mul_nonneg (hr (k + 2 + 3)).1 (by norm_num : (0 : ℚ) ≤ 0.7)]
  · nlinarith [(hr (k + 2 + 3)).1, (hr (k + 2 + 3)).2]

/-- brewInner yields one record per iteration. -/
theorem brewInner_length (e : Env) (d : ℕ) : ∀ (n k : ℕ), ((brewInner e d n k).1).length = n
  | 0, _ => rfl
  | n + 1, k => by simp [brewInner, brewInner_length e d n]

/-- Every record of brewInner comes from genBrew on the same day. -/
theorem brewInner_mem (e : Env) (d : ℕ) :
    ∀ (n k : ℕ), ∀ b ∈ (brewInner e d n k).1, ∃ k', b = (genBrew e d k').1
  | 0, _, b, hb => absurd hb (List.not_mem_nil b)
  | n + 1, k, b, hb => by
    rcases List.mem_cons.mp hb with h | h
    · exact ⟨k, h⟩
    · exact brewInner_mem e d n (genBrew e d k).2 b h

/-- Every record of genDayBrews comes from genBrew on the same day. -/
theorem genDayBrews_mem (e : Env) (d k : ℕ) :
    ∀ b ∈ (genDayBrews e d k).1, ∃ k', b = (genBrew e d k').1 := by
  unfold genDayBrews
  split_ifs
  · intro b hb
    exact absurd hb (List.not_mem_nil b)
  · exact brewInner_mem e d _ (k + 2)
  · exact brewInner_mem e d _ (k + 1)

/-- Every record of brewOuter comes from genBrew on one of its days. -/
theorem brewOuter_mem (e : Env) :
    ∀ (n d k : ℕ), ∀ b ∈ (brewOuter e d n k).1,
      ∃ d' k', d ≤ d' ∧ d' < d + n ∧ b = (genBrew e d' k').1
  | 0, _, _, b, hb => absurd hb (List.not_mem_nil b)
  | n + 1, d, k, b, hb => by
    rw [show (brewOuter e d (n + 1) k).1 =
        (genDayBrews e d k).1 ++ (brewOuter e (d + 1) n (genDayBrews e d k).2).1 from rfl] at hb
    rcases List.mem_append.mp hb with h | h
    · obtain ⟨k', hk⟩ := genDayBrews_mem e d k b h
      exact ⟨d, k', le_refl d, by omega, hk⟩
    · obtain ⟨d', k', hd1, hd2, hk⟩ := brewOuter_mem e n (d + 1) (genDayBrews e d k).2 b h
      exact ⟨d', k', by omega, by omega, hk⟩

/-- C3.  generateBrewHistory is never empty (today always contributes at
least three brews), every record is stamped within the trailing 21 days of
now, and the list is sorted non-increasing by timestamp. -/
theorem generateBrewHistory_shape (e : Env) (hr : RandOK e.rand) :
    generateBrewHistory e ≠ [] ∧
    (∀ b ∈ generateBrewHistory e,
      (e.now : ℚ) - 21 * 86400 ≤ b.timestamp ∧ b.timestamp ≤ (e.now : ℚ)) ∧
    (generateBrewHistory e).Pairwise (fun a b => b.timestamp ≤ a.timestamp) := by
  refine ⟨?_, ?_, ?_⟩
  · apply List.length_pos.mp
    rw [generateBrewHistory, List.length_insertionSort]
    rw [show (brewOuter e 0 21 0).1 =
        (genDayBrews e 0 0).1 ++ (brewOuter e 1 20 (genDayBrews e 0 0).2).1 from rfl]
    rw [List.length_append]
    have hfl : (0 : ℤ) ≤ ⌊e.rand 0 * 3⌋ :=
      Int.floor_nonneg.mpr (mul_nonneg (hr 0).1 (by norm_num))
    have h0 : ((genDayBrews e 0 0).1).length = (dayBrewCount e 0 0).toNat :=
      brewInner_length e 0 _ 1
    have hc : 3 ≤ dayBrewCount e 0 0 := by
      rw [show dayBrewCount e 0 0 = 3 + ⌊e.rand 0 * 3⌋ from rfl]
      omega
    rw [h0]
    omega
  · intro b hb
    rw [generateBrewHistory, List.mem_insertionSort] at hb
    obtain ⟨d', k', _, hd2, rfl⟩ := brewOuter_mem e 21 0 0 b hb
    exact genBrew_timestamp_bounds e hr d' k' (by omega)
  · exact List.sorted_insertionSort brewDescLE _

/-- Witness for C3 at the concrete all-zero environment. -/
theorem generateBrewHistory_shape_witness :
    RandOK wEnv.rand ∧
    (generateBrewHistory wEnv ≠ [] ∧
      (∀ b ∈ generateBrewHistory wEnv,
        ((wEnv.now : ℚ)) - 21 * 86400 ≤ b.timestamp ∧ b.timestamp ≤ ((wEnv.now : ℚ))) ∧
      (generateBrewHistory wEnv).Pairwise (fun a b => b.timestamp ≤ a.timestamp)) :=
  ⟨wEnv_rand_ok, generateBrewHistory_shape wEnv wEnv_rand_ok⟩

/-- C5 as amended.  For every record of generateBrewHistory there are raw
draws dq (the dose, in [17, 21)) and rq (the ratio, in [1.8, 2.5)) with
doseWeight = round1 (dq), ratio = round1 (rq) and yieldWeight =
round1 (dq * rq): the yield is the rounded product of the raw dose and
ratio, rounded before either factor is. -/
theorem brew_yield_from_raw_draws (e : Env) (hr : RandOK e.rand) :
    ∀ b ∈ generateBrewHistory e, ∃ dq rq : ℚ,
      17 ≤ dq ∧ dq < 21 ∧ (1.8 : ℚ) ≤ rq ∧ rq < 2.5 ∧
      b.doseWeight = round1 dq ∧ b.ratio = round1 rq ∧
      b.yieldWeight = round1 (dq * rq) := by
  intro b hb
  rw [generateBrewHistory, List.mem_insertionSort] at hb
  obtain ⟨d', k', _, _, rfl⟩ := brewOuter_mem e 21 0 0 b hb
  exact genBrew_yield e hr d' k'

/-- Witness for C5 as amended, at the concrete all-zero environment. -/
theorem brew_yield_from_raw_draws_witness :
    RandOK wEnv.rand ∧
    ∀ b ∈ generateBrewHistory wEnv, ∃ dq rq : ℚ,
      17 ≤ dq ∧ dq < 21 ∧ (1.8 : ℚ) ≤ rq ∧ rq < 2.5 ∧
      b.doseWeight = round1 dq ∧ b.ratio = round1 rq ∧
      b.yieldWeight = round1 (dq * rq) :=
  ⟨wEnv_rand_ok, brew_yield_from_raw_draws wEnv wEnv_rand_ok⟩

/-- Counterexample for C5 as stated: in cexEnv the first generated brew has
raw dose 17.04 and raw ratio 1.84, so it stores doseWeight = 17.0,
ratio = 1.8 and yieldWeight = round1 (17.04 * 1.84) = 31.4, while
round1 (17.0 * 1.8) = 30.6: the stored yield is not the rounded product of
the stored dose and stored ratio. -/
theorem brew_yield_stored_relation_fails :
    RandOK cexEnv.rand ∧
    ¬ (∀ b ∈ generateBrewHistory cexEnv, b.yieldWeight = round1 (b.doseWeight * b.ratio)) := by
  constructor
  · intro n
    show 0 ≤ cexRand n ∧ cexRand n < 1
    unfold cexRand
    split_ifs <;> norm_num
  · intro hall
    have hm : (⟨-63000, 25000, 157/5, 17, 41/5, 185/2, 9/5, 3, 9/5⟩ : BrewRecord) ∈
        generateBrewHistory cexEnv := by decide!
    exact absurd (hall _ hm) (by decide!)

end BrewOS
